import Mathlib

/-!
Verification of the analytics core of the `gak-parsers` repository.

Shallow embedding of the analytics logic: the per-event sold-count
correction ladder, the trailing-window sales velocity computation, the
season ranking pipeline, the time alignment of sample timestamps, and the
mini-graph (sparkline) series construction.

Sold counts are modelled as `ℤ` (Python integers), timestamps and
hour/minute differences as `ℚ` (Python floats; none of the verified
properties depend on binary floating-point rounding, only on order
comparisons against decimal literals).
-/

namespace Gak

/-!
Correction engine.

Model of `apply_ticket_corrections` in `src/tickets/ticket-fetch.py`
(lines 104-117): a ladder of `if event_id == <uuid>` blocks, each mutating
`tickets_sold` when its guard holds.  The three hardcoded event
identifiers are the "cup", "Horn at home" and "KSV at home" matches.
-/

/-- Model of `apply_ticket_corrections(event_id, tickets_sold, h_diff)` from
`src/tickets/ticket-fetch.py:104-117`, with each sequential mutation of
`tickets_sold` made explicit as a rebinding. -/
def apply_ticket_corrections (event_id : String) (tickets_sold : ℤ) (h_diff : ℚ) : ℤ :=
  let s1 :=
    if event_id = "456e9a8a-ce64-4580-b9e0-3405a810c696" then
      if tickets_sold ≥ 2302 then tickets_sold - 1939 else tickets_sold
    else tickets_sold
  let s2 :=
    if event_id = "aeee2d94-edae-4a6d-a65c-f2ae274361ef" then
      if s1 ≥ 5100 ∧ h_diff > 74.20 then s1 - 285 else s1
    else s1
  let s3 :=
    if event_id = "2e9e16ba-e8c3-409e-8c41-d7e6ddfaab40" then
      let a := if h_diff < 96.35 then s2 + 296 + 285 else s2
      if h_diff < 49.8 then a + 2333 else a
    else s2
  s3

/-- Model of the inline correction branch of `generate_graph` in
`src/tickets/lib/graph.py:73-84` (the same ladder applied to
`tickets['sold']` and `tickets['diff']` inside the plot loop). -/
def generate_graph_correction (event_id : String) (tickets_sold : ℤ) (h_diff : ℚ) : ℤ :=
  let s1 :=
    if event_id = "456e9a8a-ce64-4580-b9e0-3405a810c696" then
      if tickets_sold ≥ 2302 then tickets_sold - 1939 else tickets_sold
    else tickets_sold
  let s2 :=
    if event_id = "aeee2d94-edae-4a6d-a65c-f2ae274361ef" then
      if s1 ≥ 5100 ∧ h_diff > 74.20 then s1 - 285 else s1
    else s1
  let s3 :=
    if event_id = "2e9e16ba-e8c3-409e-8c41-d7e6ddfaab40" then
      let a := if h_diff < 96.35 then s2 + 296 + 285 else s2
      if h_diff < 49.8 then a + 2333 else a
    else s2
  s3

/-- Model of the inline correction branch of `draw_graph` in
`src/tickets/ticket-check.py:244-255`. -/
def draw_graph_correction (event_id : String) (tickets_sold : ℤ) (h_diff : ℚ) : ℤ :=
  let s1 :=
    if event_id = "456e9a8a-ce64-4580-b9e0-3405a810c696" then
      if tickets_sold ≥ 2302 then tickets_sold - 1939 else tickets_sold
    else tickets_sold
  let s2 :=
    if event_id = "aeee2d94-edae-4a6d-a65c-f2ae274361ef" then
      if s1 ≥ 5100 ∧ h_diff > 74.20 then s1 - 285 else s1
    else s1
  let s3 :=
    if event_id = "2e9e16ba-e8c3-409e-8c41-d7e6ddfaab40" then
      let a := if h_diff < 96.35 then s2 + 296 + 285 else s2
      if h_diff < 49.8 then a + 2333 else a
    else s2
  s3

/-- Model of the inline correction branch of `draw_graph` in the legacy
script `src/ticket-check.py:101-122` ("cup correct", "fix Horn at home",
"fix KSV at home"; the commented-out lines of the source are dead code and
not modelled). -/
def draw_graph_correction_legacy (event_id : String) (tickets_sold : ℤ) (h_diff : ℚ) : ℤ :=
  let s1 :=
    if event_id = "456e9a8a-ce64-4580-b9e0-3405a810c696" then
      if tickets_sold ≥ 2302 then tickets_sold - 1939 else tickets_sold
    else tickets_sold
  let s2 :=
    if event_id = "aeee2d94-edae-4a6d-a65c-f2ae274361ef" then
      if s1 ≥ 5100 ∧ h_diff > 74.20 then s1 - 285 else s1
    else s1
  let s3 :=
    if event_id = "2e9e16ba-e8c3-409e-8c41-d7e6ddfaab40" then
      let a := if h_diff < 96.35 then s2 + 296 + 285 else s2
      if h_diff < 49.8 then a + 2333 else a
    else s2
  s3

/-- One correction rule of the spec's table-driven formulation:
an event identifier, a guard over the raw sold count and the
hours-until-event value, and a signed delta.  Modelled from the spec's
Correction Rule data model (§3, §4.1). -/
structure CorrectionRule where
  eventId : String
  cond : ℤ → ℚ → Bool
  delta : ℤ

/-- The correction table, read off the guard/delta literals of
`apply_ticket_corrections`: one rule for the cup event, one for the Horn
event, two for the KSV event, in source declaration order. -/
def correctionRules : List CorrectionRule :=
  [ ⟨"456e9a8a-ce64-4580-b9e0-3405a810c696", fun sold _ => decide (sold ≥ 2302), -1939⟩,
    ⟨"aeee2d94-edae-4a6d-a65c-f2ae274361ef",
      fun sold h => decide (sold ≥ 5100) && decide (h > 74.20), -285⟩,
    ⟨"2e9e16ba-e8c3-409e-8c41-d7e6ddfaab40", fun _ h => decide (h < 96.35), 296 + 285⟩,
    ⟨"2e9e16ba-e8c3-409e-8c41-d7e6ddfaab40", fun _ h => decide (h < 49.8), 2333⟩ ]

/-- The spec's reading of the correction engine (§4.1): the raw sold count
plus the sum of the deltas of every rule whose event identifier matches and
whose guard holds on the raw inputs, taken in table-declaration order. -/
def ruleTableCorrected (event_id : String) (raw_sold : ℤ) (h_diff : ℚ) : ℤ :=
  raw_sold +
    ((correctionRules.filter
        (fun r => r.eventId == event_id && r.cond raw_sold h_diff)).map
      (fun r => r.delta)).sum

/-- C1: the correction operation is a pure function whose result equals the
raw sold count plus the sum of the deltas of every rule whose event
identifier matches and whose guard holds (evaluated in declaration order),
and for any event identifier other than the three hardcoded ones the raw
sold count is returned unchanged.  Determinism on identical inputs is
immediate since `apply_ticket_corrections` is a function of its
arguments. -/
theorem apply_ticket_corrections_eq_rule_table_sum
    (event_id : String) (sold : ℤ) (h : ℚ) :
    apply_ticket_corrections event_id sold h = ruleTableCorrected event_id sold h ∧
    (event_id ≠ "456e9a8a-ce64-4580-b9e0-3405a810c696" ∧
     event_id ≠ "aeee2d94-edae-4a6d-a65c-f2ae274361ef" ∧
     event_id ≠ "2e9e16ba-e8c3-409e-8c41-d7e6ddfaab40" →
      apply_ticket_corrections event_id sold h = sold) := by
  constructor
  · by_cases hA : event_id = "456e9a8a-ce64-4580-b9e0-3405a810c696"
    · subst hA
      by_cases hs : sold ≥ 2302 <;>
        simp [apply_ticket_corrections, ruleTableCorrected, correctionRules, hs] <;> omega
    by_cases hB : event_id = "aeee2d94-edae-4a6d-a65c-f2ae274361ef"
    · subst hB
      by_cases hs : sold ≥ 5100 <;> by_cases hh : h > 74.20 <;>
        simp [apply_ticket_corrections, ruleTableCorrected, correctionRules, hs, hh] <;> omega
    by_cases hC : event_id = "2e9e16ba-e8c3-409e-8c41-d7e6ddfaab40"
    · subst hC
      by_cases h1 : h < 96.35 <;> by_cases h2 : h < 49.8 <;>
        simp [apply_ticket_corrections, ruleTableCorrected, correctionRules, h1, h2] <;> omega
    · simp [apply_ticket_corrections, ruleTableCorrected, correctionRules,
        hA, hB, hC, Ne.symm hA, Ne.symm hB, Ne.symm hC]
  · rintro ⟨hA, hB, hC⟩
    simp [apply_ticket_corrections, hA, hB, hC]

/-- Witness for C1: a concrete event identifier matching no rule, where the
corrected value equals both the rule-table sum and the unchanged input. -/
theorem apply_ticket_corrections_eq_rule_table_sum_witness :
    apply_ticket_corrections "no-such-event" 500 10 = ruleTableCorrected "no-such-event" 500 10 ∧
    apply_ticket_corrections "no-such-event" 500 10 = 500 := by
  have h := apply_ticket_corrections_eq_rule_table_sum "no-such-event" 500 10
  exact ⟨h.1, h.2 (by refine ⟨?_, ?_, ?_⟩ <;> decide)⟩

/-- C10: the four duplicated correction implementations (the extracted
`apply_ticket_corrections` and the three inline graph-loop branches) agree
on every input. -/
theorem correction_implementations_agree (event_id : String) (sold : ℤ) (h : ℚ) :
    generate_graph_correction event_id sold h = apply_ticket_corrections event_id sold h ∧
    draw_graph_correction event_id sold h = apply_ticket_corrections event_id sold h ∧
    draw_graph_correction_legacy event_id sold h = apply_ticket_corrections event_id sold h :=
  ⟨rfl, rfl, rfl⟩

/-!
Velocity calculator.

Model of the `get_sold_in_window` closure inside `generate_page` in
`src/tickets/ticket-fetch.py` (lines 252-262).  A sample is a pair of its
naive UTC timestamp (minutes, as `ℚ`) and its sold count; `now` and the
window length are in the same units.  Python's `max`/`min` over a nonempty
list are modelled as left folds over the head.
-/

/-- Maximum of a list as Python's `max` computes it on a nonempty list
(left fold of binary max over the head); `0` on `[]`, a case the code
never reaches because it is guarded by a length check. -/
def pymax : List ℤ → ℤ
  | [] => 0
  | x :: xs => xs.foldl max x

/-- Minimum of a list as Python's `min` computes it on a nonempty list;
`0` on `[]`, unreachable behind the length guard. -/
def pymin : List ℤ → ℤ
  | [] => 0
  | x :: xs => xs.foldl min x

/-- The list comprehension `[s for t, s in timestamps if t >= window_ago]`
of `src/tickets/ticket-fetch.py:255`. -/
def windowEntries (timestamps : List (ℚ × ℤ)) (window_ago : ℚ) : List ℤ :=
  (timestamps.filter (fun ts => window_ago ≤ ts.1)).map Prod.snd

/-- Model of `get_sold_in_window(window_minutes)` from
`src/tickets/ticket-fetch.py:253-258`, with the closed-over `timestamps`
and `now` made explicit parameters. -/
def get_sold_in_window (timestamps : List (ℚ × ℤ)) (now : ℚ)
    (window_minutes : ℚ) : ℤ :=
  let window_ago := now - window_minutes
  let window_entries := windowEntries timestamps window_ago
  if 2 ≤ window_entries.length then pymax window_entries - pymin window_entries
  else 0

theorem get_sold_in_window_eq (timestamps : List (ℚ × ℤ)) (now w : ℚ) :
    get_sold_in_window timestamps now w =
      if 2 ≤ (windowEntries timestamps (now - w)).length
      then pymax (windowEntries timestamps (now - w)) -
           pymin (windowEntries timestamps (now - w))
      else 0 := rfl

theorem foldl_max_mem (l : List ℤ) (a : ℤ) : l.foldl max a ∈ a :: l := by
  induction l generalizing a with
  | nil => simp
  | cons x xs ih =>
    simp only [List.foldl_cons]
    have h := ih (max a x)
    rcases List.mem_cons.mp h with h | h
    · rw [h]
      rcases max_choice a x with hm | hm <;> rw [hm]
      · exact List.mem_cons_self _ _
      · exact List.mem_cons_of_mem _ (List.mem_cons_self _ _)
    · exact List.mem_cons_of_mem _ (List.mem_cons_of_mem _ h)

theorem le_foldl_max (l : List ℤ) (a : ℤ) : ∀ x ∈ a :: l, x ≤ l.foldl max a := by
  induction l generalizing a with
  | nil => intro x hx; simp at hx; simp [hx]
  | cons y ys ih =>
    intro x hx
    simp only [List.foldl_cons]
    rcases List.mem_cons.mp hx with rfl | hx
    · exact le_trans (le_max_left x y) (ih (max x y) _ (List.mem_cons_self _ _))
    rcases List.mem_cons.mp hx with rfl | hx
    · exact le_trans (le_max_right a x) (ih (max a x) _ (List.mem_cons_self _ _))
    · exact ih (max a y) x (List.mem_cons_of_mem _ hx)

theorem foldl_min_mem (l : List ℤ) (a : ℤ) : l.foldl min a ∈ a :: l := by
  induction l generalizing a with
  | nil => simp
  | cons x xs ih =>
    simp only [List.foldl_cons]
    have h := ih (min a x)
    rcases List.mem_cons.mp h with h | h
    · rw [h]
      rcases min_choice a x with hm | hm <;> rw [hm]
      · exact List.mem_cons_self _ _
      · exact List.mem_cons_of_mem _ (List.mem_cons_self _ _)
    · exact List.mem_cons_of_mem _ (List.mem_cons_of_mem _ h)

theorem foldl_min_le (l : List ℤ) (a : ℤ) : ∀ x ∈ a :: l, l.foldl min a ≤ x := by
  induction l generalizing a with
  | nil => intro x hx; simp at hx; simp [hx]
  | cons y ys ih =>
    intro x hx
    simp only [List.foldl_cons]
    rcases List.mem_cons.mp hx with rfl | hx
    · exact le_trans (ih (min x y) _ (List.mem_cons_self _ _)) (min_le_left x y)
    rcases List.mem_cons.mp hx with rfl | hx
    · exact le_trans (ih (min a x) _ (List.mem_cons_self _ _)) (min_le_right a x)
    · exact ih (min a y) x (List.mem_cons_of_mem _ hx)

theorem pymax_mem (l : List ℤ) (h : l ≠ []) : pymax l ∈ l := by
  cases l with
  | nil => simp at h
  | cons x xs => exact foldl_max_mem xs x

theorem le_pymax (l : List ℤ) : ∀ x ∈ l, x ≤ pymax l := by
  cases l with
  | nil => intro x hx; simp at hx
  | cons x xs => exact le_foldl_max xs x

theorem pymin_mem (l : List ℤ) (h : l ≠ []) : pymin l ∈ l := by
  cases l with
  | nil => simp at h
  | cons x xs => exact foldl_min_mem xs x

theorem pymin_le (l : List ℤ) : ∀ x ∈ l, pymin l ≤ x := by
  cases l with
  | nil => intro x hx; simp at hx
  | cons x xs => exact foldl_min_le xs x

/-- C2: for a time-sorted sample list and a window length in
{10, 60, 1440} minutes, the reported delta is `max(sold) - min(sold)` over
exactly the samples with timestamp `≥ now - w` when at least two such
samples exist (the maximum is an element of the window subset bounding it
from above, the minimum an element bounding it from below), and is the
explicit value `0` when fewer than two samples fall in the window. -/
theorem get_sold_in_window_max_minus_min (timestamps : List (ℚ × ℤ)) (now w : ℚ)
    (hsorted : timestamps.Pairwise (fun a b => a.1 ≤ b.1))
    (hw : w = 10 ∨ w = 60 ∨ w = 1440) :
    (2 ≤ (windowEntries timestamps (now - w)).length →
      ∃ a ∈ windowEntries timestamps (now - w),
      ∃ b ∈ windowEntries timestamps (now - w),
        (∀ x ∈ windowEntries timestamps (now - w), x ≤ a) ∧
        (∀ x ∈ windowEntries timestamps (now - w), b ≤ x) ∧
        get_sold_in_window timestamps now w = a - b) ∧
    ((windowEntries timestamps (now - w)).length < 2 →
      get_sold_in_window timestamps now w = 0) := by
  rw [get_sold_in_window_eq]
  set ws := windowEntries timestamps (now - w) with hws
  constructor
  · intro hlen
    have hne : ws ≠ [] := by
      intro hnil; rw [hnil] at hlen; simp at hlen
    exact ⟨pymax ws, pymax_mem ws hne, pymin ws, pymin_mem ws hne,
      le_pymax ws, pymin_le ws, if_pos hlen⟩
  · intro hlen
    exact if_neg (by omega)

/-- Witness for C2: two samples at minutes 0 and 3 with sold counts 5 and
7, `now = 3`, 10-minute window; both samples are in the window and the
reported delta is `7 - 5`. -/
theorem get_sold_in_window_max_minus_min_witness :
    List.Pairwise (fun (a b : ℚ × ℤ) => a.1 ≤ b.1) [((0:ℚ), (5:ℤ)), (3, 7)] ∧
    ((2 ≤ (windowEntries [((0:ℚ), (5:ℤ)), (3, 7)] (3 - 10)).length →
      ∃ a ∈ windowEntries [((0:ℚ), (5:ℤ)), (3, 7)] (3 - 10),
      ∃ b ∈ windowEntries [((0:ℚ), (5:ℤ)), (3, 7)] (3 - 10),
        (∀ x ∈ windowEntries [((0:ℚ), (5:ℤ)), (3, 7)] (3 - 10), x ≤ a) ∧
        (∀ x ∈ windowEntries [((0:ℚ), (5:ℤ)), (3, 7)] (3 - 10), b ≤ x) ∧
        get_sold_in_window [((0:ℚ), (5:ℤ)), (3, 7)] 3 10 = a - b) ∧
    ((windowEntries [((0:ℚ), (5:ℤ)), (3, 7)] (3 - 10)).length < 2 →
      get_sold_in_window [((0:ℚ), (5:ℤ)), (3, 7)] 3 10 = 0)) :=
  ⟨by norm_num,
   get_sold_in_window_max_minus_min [((0:ℚ), (5:ℤ)), (3, 7)] 3 10
     (by norm_num) (Or.inl rfl)⟩

/-- Counterexample for C8 as stated: for the samples
`[(t0,100), (t0+5min,105), (t0+50min,110)]` with `now = t0+50min`, only one
sample (the one at `t0+50min`) lies in the 10-minute window, so the code
reports `0` for the 10-minute delta, not the claimed `5`. -/
theorem get_sold_in_window_ten_min_example_is_zero :
    get_sold_in_window [((0:ℚ), (100:ℤ)), (5, 105), (50, 110)] 50 10 = 0 ∧
    (0 : ℤ) ≠ 5 := by
  constructor
  · norm_num [get_sold_in_window, windowEntries, pymax, pymin, List.filter]
  · decide

/-- C8 amended: the delta reported for a larger window is never less than
the delta reported for a smaller window, because each window independently
re-scans the full series and the smaller window's sample set is a sublist
of the larger window's; concretely, for samples
`[(t0,100), (t0+5min,105), (t0+50min,110)]` with `now = t0+50min`, the
10-minute delta is `0` (only one sample in the window) and the 60-minute
delta is `10`. -/
theorem get_sold_in_window_monotone :
    (∀ (timestamps : List (ℚ × ℤ)) (now w1 w2 : ℚ), w1 ≤ w2 →
      get_sold_in_window timestamps now w1 ≤ get_sold_in_window timestamps now w2) ∧
    get_sold_in_window [((0:ℚ), (100:ℤ)), (5, 105), (50, 110)] 50 10 = 0 ∧
    get_sold_in_window [((0:ℚ), (100:ℤ)), (5, 105), (50, 110)] 50 60 = 10 := by
  refine ⟨?_, ?_, ?_⟩
  · intro timestamps now w1 w2 hw
    rw [get_sold_in_window_eq, get_sold_in_window_eq]
    set s1 := windowEntries timestamps (now - w1) with hs1
    set s2 := windowEntries timestamps (now - w2) with hs2
    have hsub : (timestamps.filter (fun ts => now - w1 ≤ ts.1)).Sublist
        (timestamps.filter (fun ts => now - w2 ≤ ts.1)) := by
      apply List.monotone_filter_right
      intro a ha
      simp only [decide_eq_true_eq] at ha ⊢
      linarith
    have hsub2 : s1.Sublist s2 := hsub.map Prod.snd
    by_cases h1 : 2 ≤ s1.length
    · have h2 : 2 ≤ s2.length := le_trans h1 hsub2.length_le
      rw [if_pos h1, if_pos h2]
      have hne1 : s1 ≠ [] := by intro hnil; rw [hnil] at h1; simp at h1
      have haux : pymax s1 ≤ pymax s2 :=
        le_pymax s2 _ (hsub2.subset (pymax_mem s1 hne1))
      have haux2 : pymin s2 ≤ pymin s1 :=
        pymin_le s2 _ (hsub2.subset (pymin_mem s1 hne1))
      omega
    · rw [if_neg h1]
      by_cases h2 : 2 ≤ s2.length
      · rw [if_pos h2]
        have hne2 : s2 ≠ [] := by intro hnil; rw [hnil] at h2; simp at h2
        have := le_pymax s2 _ (pymin_mem s2 hne2)
        omega
      · rw [if_neg h2]
  · norm_num [get_sold_in_window, windowEntries, pymax, pymin, List.filter]
  · norm_num [get_sold_in_window, windowEntries, pymax, pymin, List.filter]

/-- Witness for C8 amended: the 10-minute delta of the concrete series is
at most its 60-minute delta. -/
theorem get_sold_in_window_monotone_witness :
    (10 : ℚ) ≤ 60 ∧
    get_sold_in_window [((0:ℚ), (100:ℤ)), (5, 105), (50, 110)] 50 10 ≤
      get_sold_in_window [((0:ℚ), (100:ℤ)), (5, 105), (50, 110)] 50 60 :=
  ⟨by norm_num,
   get_sold_in_window_monotone.1 [((0:ℚ), (100:ℤ)), (5, 105), (50, 110)] 50 10 60
     (by norm_num)⟩

/-!
Sample rows and the "latest entry" selection.

Model of the row lists returned by `db.get_entries_for_event` and their
use in `generate_page` (`src/tickets/ticket-fetch.py:309-325`), which
takes `latest = entries[-1]` in store-returned order, without sorting.
An `Entry` keeps the two row fields the analytics reads: `SOLD`
(`entry[1]`) and the parsed `TIMESTAMP` (`entry[3]`); the unused
`AVAILABLE` column is omitted.
-/

/-- One `ENTRIES` row as the analytics sees it: sold count and parsed,
zone-stripped sample timestamp (hours, as `ℚ`). -/
structure Entry where
  sold : ℤ
  sampled_at : ℚ
deriving DecidableEq

/-- Model of `latest = entries[-1]; latest[1]` from
`src/tickets/ticket-fetch.py:222-223` and `311-312`: the sold count of the
last row in store-returned order, `none` on an empty row list. -/
def lastSold (entries : List Entry) : Option ℤ := entries.getLast?.map Entry.sold

/-- Counterexample for C3: a store-returned order in which the last row is
not the one with maximal `sampled_at`.  Every entry of maximal timestamp
has sold count `5`, yet the code's "latest" sold count is `3`. -/
theorem lastSold_not_max_timestamp :
    lastSold [Entry.mk 5 2, Entry.mk 3 1] = some 3 ∧
    (∀ e ∈ [Entry.mk 5 2, Entry.mk 3 1],
      (∀ e' ∈ [Entry.mk 5 2, Entry.mk 3 1], e'.sampled_at ≤ e.sampled_at) → e.sold = 5) ∧
    ((3 : ℤ) ≠ 5) := by
  refine ⟨rfl, ?_, by decide⟩
  intro e he hmax
  simp only [List.mem_cons, List.not_mem_nil, or_false] at he
  rcases he with rfl | rfl
  · rfl
  · exfalso
    have h1 := hmax (Entry.mk 5 2) (by simp)
    norm_num at h1

theorem getLast_max_of_sorted : ∀ (l : List Entry) (h : l ≠ []),
    l.Pairwise (fun a b => a.sampled_at ≤ b.sampled_at) →
    ∀ e ∈ l, e.sampled_at ≤ (l.getLast h).sampled_at := by
  intro l
  induction l with
  | nil => intro h; simp at h
  | cons x xs ih =>
    intro h hp e he
    cases xs with
    | nil =>
      simp at he
      simp [he, List.getLast]
    | cons y ys =>
      rw [List.getLast_cons (by simp)]
      rcases List.mem_cons.mp he with rfl | he2
      · have hx : ∀ b ∈ y :: ys, e.sampled_at ≤ b.sampled_at :=
          (List.pairwise_cons.mp hp).1
        exact hx _ (List.getLast_mem _)
      · exact ih (by simp) (List.pairwise_cons.mp hp).2 e he2

/-- C3 amended: the sold count used for ranking is the last row in
store-returned order; when the store returns the rows sorted ascending by
`sampled_at` (the natural insertion order) this coincides with the sold
count of a maximal-timestamp sample, but the code does not sort and so
does not guarantee this for arbitrary store orders. -/
theorem lastSold_max_timestamp_of_sorted (entries : List Entry) (hne : entries ≠ [])
    (hsorted : entries.Pairwise (fun a b => a.sampled_at ≤ b.sampled_at)) :
    ∃ e ∈ entries, lastSold entries = some e.sold ∧
      ∀ e' ∈ entries, e'.sampled_at ≤ e.sampled_at := by
  refine ⟨entries.getLast hne, List.getLast_mem hne, ?_,
    getLast_max_of_sorted entries hne hsorted⟩
  simp [lastSold, List.getLast?_eq_getLast _ hne]

/-- Witness for C3 amended: two rows in ascending timestamp order; the
last row is the maximal-timestamp one and its sold count is reported. -/
theorem lastSold_max_timestamp_of_sorted_witness :
    ([Entry.mk 100 1, Entry.mk 120 2] ≠ []) ∧
    List.Pairwise (fun a b : Entry => a.sampled_at ≤ b.sampled_at)
      [Entry.mk 100 1, Entry.mk 120 2] ∧
    ∃ e ∈ [Entry.mk 100 1, Entry.mk 120 2],
      lastSold [Entry.mk 100 1, Entry.mk 120 2] = some e.sold ∧
      ∀ e' ∈ [Entry.mk 100 1, Entry.mk 120 2], e'.sampled_at ≤ e.sampled_at :=
  ⟨by simp, by norm_num [List.pairwise_cons],
   lastSold_max_timestamp_of_sorted _ (by simp) (by norm_num [List.pairwise_cons])⟩

/-!
Mini-graph (sparkline) series construction.

Model of `generate_mini_graph` in `src/tickets/ticket-fetch.py`
(lines 120-179).  A `RawEntry` carries the parse result of the row's
timestamp (`none` models a `ParserError`/`ValueError` that the loop
skips) and the sold count; `event_time` is the zone-stripped event start
in hours.  The rendered payload is modelled by the plotted
`(hours, sold)` series itself.
-/

/-- One raw `ENTRIES` row before timestamp parsing: `sampled_at` is the
parse result of `entry[3]` (`none` models an unparseable timestamp whose
row the loop skips), `sold` is `entry[1]`. -/
structure RawEntry where
  sampled_at : Option ℚ
  sold : ℤ
deriving DecidableEq

/-- The `(hours, sold)` pairs accumulated by the loop of
`generate_mini_graph` (`src/tickets/ticket-fetch.py:130-148`):
`h_diff = event_time - tickets_time` in hours, sold corrected through
`apply_ticket_corrections`, rows with unparseable timestamps skipped. -/
def miniPoints (event_id : String) (event_time : ℚ) (entries : List RawEntry) :
    List (ℚ × ℤ) :=
  entries.filterMap (fun e => e.sampled_at.map (fun ts =>
    let h_diff := event_time - ts
    (h_diff, apply_ticket_corrections event_id e.sold h_diff)))

/-- The filtered series of `src/tickets/ticket-fetch.py:153-155`: the
accumulated points restricted to `h <= 300`.  Note the filter has no lower
bound; negative hours (samples taken after the event) are kept. -/
def miniSeries (event_id : String) (event_time : ℚ) (entries : List RawEntry) :
    List (ℚ × ℤ) :=
  (miniPoints event_id event_time entries).filter (fun p => p.1 ≤ 300)

/-- Model of `generate_mini_graph` (`src/tickets/ticket-fetch.py:120-179`):
`none` when the row list is empty, when every row's timestamp fails to
parse, or when no point survives the `h <= 300` filter; otherwise the
plotted series standing in for the base64 PNG payload. -/
def generate_mini_graph (event_id : String) (event_time : ℚ)
    (entries : List RawEntry) : Option (List (ℚ × ℤ)) :=
  if entries.isEmpty then none
  else if (miniPoints event_id event_time entries).isEmpty then none
  else if (miniSeries event_id event_time entries).isEmpty then none
  else some (miniSeries event_id event_time entries)

/-- The `(hours, sold)` pairs accumulated by the per-event plot loop of
`generate_graph` (`src/tickets/lib/graph.py:62-90`): `sampled_at` here is
the parsed timestamp's wall clock restamped as UTC, `h_diff` is the event
start minus it, sold goes through the inline ladder
`generate_graph_correction`, rows with unparseable timestamps are skipped.
The overlay chart applies no data clip (its 0-600 window is a display-only
`set_xlim`), so these points are the series handed to the renderer. -/
def graphPoints (event_id : String) (event_time : ℚ) (entries : List RawEntry) :
    List (ℚ × ℤ) :=
  entries.filterMap (fun e => e.sampled_at.map (fun ts =>
    let h_diff := event_time - ts
    (h_diff, generate_graph_correction event_id e.sold h_diff)))

/-- Counterexample for C4: two samples in ascending timestamp order give
the series `[(49, 10), (48, 20)]` — not sorted ascending by
`hours_until_event` — in both the sparkline pipeline
(`generate_mini_graph`) and the overlay pipeline (`generate_graph`);
neither loop sorts the series. -/
theorem mini_series_not_sorted_ascending :
    miniSeries "no-such-event" 50 [RawEntry.mk (some 1) 10, RawEntry.mk (some 2) 20] =
      [(49, 10), (48, 20)] ∧
    ¬ (miniSeries "no-such-event" 50
        [RawEntry.mk (some 1) 10, RawEntry.mk (some 2) 20]).Pairwise
        (fun p q => p.1 ≤ q.1) ∧
    graphPoints "no-such-event" 50 [RawEntry.mk (some 1) 10, RawEntry.mk (some 2) 20] =
      [(49, 10), (48, 20)] ∧
    ¬ (graphPoints "no-such-event" 50
        [RawEntry.mk (some 1) 10, RawEntry.mk (some 2) 20]).Pairwise
        (fun p q => p.1 ≤ q.1) := by
  refine ⟨?_, ?_, ?_, ?_⟩
  · norm_num [miniSeries, miniPoints, apply_ticket_corrections, List.filterMap, List.filter]
    decide
  · rw [show miniSeries "no-such-event" 50
        [RawEntry.mk (some 1) 10, RawEntry.mk (some 2) 20] =
        [((49:ℚ), (10:ℤ)), (48, 20)] by
      norm_num [miniSeries, miniPoints, apply_ticket_corrections, List.filterMap, List.filter]
      decide]
    intro hp
    have := (List.pairwise_cons.mp hp).1 (48, 20) (by simp)
    norm_num at this
  · norm_num [graphPoints, generate_graph_correction, List.filterMap]
    decide
  · rw [show graphPoints "no-such-event" 50
        [RawEntry.mk (some 1) 10, RawEntry.mk (some 2) 20] =
        [((49:ℚ), (10:ℤ)), (48, 20)] by
      norm_num [graphPoints, generate_graph_correction, List.filterMap]
      decide]
    intro hp
    have := (List.pairwise_cons.mp hp).1 (48, 20) (by simp)
    norm_num at this

/-- C4 amended: the series handed to the renderer — the sparkline series
of `generate_mini_graph` and the overlay series of `generate_graph` — is
built in store-returned sample order with no sort applied; when the store
returns the samples in descending `sampled_at` order, both series are
sorted ascending by `hours_until_event`, since `hours_until_event`
reverses the timestamp order (so the natural chronological store order
yields a descending-by-hours series, as the counterexample shows). -/
theorem series_sorted_of_desc_samples (event_id : String) (event_time : ℚ)
    (entries : List RawEntry)
    (hdesc : entries.Pairwise (fun a b =>
      ∀ ta ∈ a.sampled_at, ∀ tb ∈ b.sampled_at, tb ≤ ta)) :
    (miniSeries event_id event_time entries).Pairwise (fun p q => p.1 ≤ q.1) ∧
    (graphPoints event_id event_time entries).Pairwise (fun p q => p.1 ≤ q.1) := by
  constructor
  · apply List.Pairwise.sublist (List.filter_sublist _)
    rw [miniPoints, List.pairwise_filterMap]
    apply hdesc.imp
    intro a b hab
    intro x hx y hy
    simp only [Option.mem_def, Option.map_eq_some'] at hx hy
    obtain ⟨ta, hta, rfl⟩ := hx
    obtain ⟨tb, htb, rfl⟩ := hy
    have := hab ta hta tb htb
    simp only
    linarith
  · rw [graphPoints, List.pairwise_filterMap]
    apply hdesc.imp
    intro a b hab
    intro x hx y hy
    simp only [Option.mem_def, Option.map_eq_some'] at hx hy
    obtain ⟨ta, hta, rfl⟩ := hx
    obtain ⟨tb, htb, rfl⟩ := hy
    have := hab ta hta tb htb
    simp only
    linarith

/-- Witness for C4 amended: samples returned newest-first yield sparkline
and overlay series both sorted ascending by hours. -/
theorem series_sorted_of_desc_samples_witness :
    List.Pairwise (fun a b : RawEntry =>
      ∀ ta ∈ a.sampled_at, ∀ tb ∈ b.sampled_at, tb ≤ ta)
      [RawEntry.mk (some 2) 20, RawEntry.mk (some 1) 10] ∧
    (miniSeries "no-such-event" 50
      [RawEntry.mk (some 2) 20, RawEntry.mk (some 1) 10]).Pairwise
      (fun p q => p.1 ≤ q.1) ∧
    (graphPoints "no-such-event" 50
      [RawEntry.mk (some 2) 20, RawEntry.mk (some 1) 10]).Pairwise
      (fun p q => p.1 ≤ q.1) := by
  refine ⟨by norm_num [List.pairwise_cons], ?_, ?_⟩
  · exact (series_sorted_of_desc_samples "no-such-event" 50 _
      (by norm_num [List.pairwise_cons])).1
  · exact (series_sorted_of_desc_samples "no-such-event" 50 _
      (by norm_num [List.pairwise_cons])).2

/-- Counterexample for C9 as stated: a single sample five hours after the
event yields a series that is empty after clipping to the literal 0-300
hour window, yet the code returns a chart payload (`isSome`), because its
clip keeps every point with `h <= 300` including negative hours. -/
theorem generate_mini_graph_some_on_negative_hours :
    ((miniPoints "no-such-event" 50 [RawEntry.mk (some 55) 10]).filter
        (fun p => decide (0 ≤ p.1) && decide (p.1 ≤ 300))) = [] ∧
    (generate_mini_graph "no-such-event" 50 [RawEntry.mk (some 55) 10]).isSome = true := by
  constructor
  · norm_num [miniPoints, apply_ticket_corrections, List.filterMap, List.filter]
  · norm_num [generate_mini_graph, miniSeries, miniPoints, apply_ticket_corrections,
      List.filterMap, List.filter]

/-- C9 amended: mini-graph generation returns a payload exactly when some
parseable sample has `hours_until_event <= 300` (in particular it succeeds
with a single such data point and returns `none`, not an exception, when
the list is empty, all timestamps are unparseable, or no point passes the
`h <= 300` clip — a clip with no lower bound). -/
theorem generate_mini_graph_isSome_iff (event_id : String) (event_time : ℚ)
    (entries : List RawEntry) :
    (generate_mini_graph event_id event_time entries).isSome ↔
      ∃ e ∈ entries, ∃ ts, e.sampled_at = some ts ∧ event_time - ts ≤ 300 := by
  have hchain : (generate_mini_graph event_id event_time entries).isSome ↔
      miniSeries event_id event_time entries ≠ [] := by
    unfold generate_mini_graph
    by_cases h1 : entries.isEmpty
    · simp only [h1, if_true]
      constructor
      · intro h; simp at h
      · intro h
        exfalso
        apply h
        rw [List.isEmpty_iff] at h1
        simp [miniSeries, miniPoints, h1]
    · by_cases h2 : (miniPoints event_id event_time entries).isEmpty
      · simp only [h1, h2, if_false, if_true]
        constructor
        · intro h; simp at h
        · intro h
          exfalso
          apply h
          rw [List.isEmpty_iff] at h2
          simp [miniSeries, h2]
      · by_cases h3 : (miniSeries event_id event_time entries).isEmpty
        · simp only [h1, h2, h3, if_false, if_true]
          rw [List.isEmpty_iff] at h3
          simp [h3]
        · simp only [h1, h2, h3, if_false]
          rw [List.isEmpty_iff] at h3
          simp [h3]
  rw [hchain, miniSeries]
  have hfilt : (List.filter (fun p => decide (p.1 ≤ 300))
        (miniPoints event_id event_time entries) ≠ []) ↔
      ∃ p ∈ miniPoints event_id event_time entries, p.1 ≤ 300 := by
    rw [ne_eq, List.filter_eq_nil_iff]
    push_neg
    simp
  rw [hfilt]
  constructor
  · rintro ⟨p, hp, hle⟩
    rw [miniPoints] at hp
    simp only [List.mem_filterMap] at hp
    obtain ⟨e, he, hmap⟩ := hp
    rw [Option.map_eq_some'] at hmap
    obtain ⟨ts, hts, heq⟩ := hmap
    refine ⟨e, he, ts, hts, ?_⟩
    have hp1 : p.1 = event_time - ts := by rw [← heq]
    linarith
  · rintro ⟨e, he, ts, hts, hle⟩
    refine ⟨(event_time - ts, apply_ticket_corrections event_id e.sold (event_time - ts)),
      ?_, hle⟩
    rw [miniPoints]
    simp only [List.mem_filterMap]
    exact ⟨e, he, by rw [hts]; rfl⟩

/-!
Season aggregator.

Model of the past-events block of `generate_page`
(`src/tickets/ticket-fetch.py:285-345`): the July-anchored season start,
the season membership filter, the stable descending sort by sold count
with rank/standout assignment, and the re-sort by date for display.
-/

/-- Model of the season-start computation of
`src/tickets/ticket-fetch.py:289-294`, as a `(year, month, day)` triple:
`datetime(current_year - 1, 7, 1)` when `now.month < 7`, else
`datetime(current_year, 7, 1)`. -/
def season_start (nowYear : ℤ) (nowMonth : ℕ) : ℤ × ℕ × ℕ :=
  if nowMonth < 7 then (nowYear - 1, 7, 1) else (nowYear, 7, 1)

/-- One parsed event as the past-events loop sees it: zone-stripped start
time (hours, as `ℚ`) and its sample rows. -/
structure EventRow where
  start_time : ℚ
  entries : List Entry
deriving DecidableEq

/-- The past-event selection of `src/tickets/ticket-fetch.py:296-311`:
skip when `event_time >= now or event_time < season_start`, then keep only
events that have at least one sample row. -/
def selectSeasonEvents (rows : List EventRow) (now ss : ℚ) : List EventRow :=
  rows.filter (fun r =>
    !(decide (r.start_time ≥ now) || decide (r.start_time < ss)) && !r.entries.isEmpty)

/-- C5: the season start is July 1 of the current year when
`now.month >= 7` and July 1 of the previous year otherwise, and an event
(with at least one sample, as the aggregator's inputs all have) is
included in the season selection iff `season_start <= start_time < now` —
the season-start boundary is included, `now` and everything after it is
excluded. -/
theorem season_start_and_membership :
    (∀ (y : ℤ) (m : ℕ),
      (7 ≤ m → season_start y m = (y, 7, 1)) ∧
      (m < 7 → season_start y m = (y - 1, 7, 1))) ∧
    (∀ (rows : List EventRow) (now ss : ℚ), (∀ r ∈ rows, r.entries ≠ []) →
      ∀ r ∈ rows,
        (r ∈ selectSeasonEvents rows now ss ↔ ss ≤ r.start_time ∧ r.start_time < now)) := by
  constructor
  · intro y m
    constructor
    · intro h
      rw [season_start, if_neg (by omega)]
    · intro h
      rw [season_start, if_pos h]
  · intro rows now ss hne r hr
    rw [selectSeasonEvents, List.mem_filter]
    have hre : r.entries ≠ [] := hne r hr
    simp [hr, hre, List.isEmpty_iff, not_or, not_le, and_comm]

/-- Witness for C5: a March `now` uses last year's July 1, an August `now`
uses this year's; an event starting at hour 5 with one sample is selected
for `season_start = 0`, `now = 10`. -/
theorem season_start_and_membership_witness :
    season_start 2024 8 = (2024, 7, 1) ∧
    season_start 2024 3 = (2023, 7, 1) ∧
    (EventRow.mk 5 [Entry.mk 100 0] ∈
        selectSeasonEvents [EventRow.mk 5 [Entry.mk 100 0]] 10 0 ↔
      (0:ℚ) ≤ 5 ∧ (5:ℚ) < 10) :=
  ⟨(season_start_and_membership.1 2024 8).1 (by norm_num),
   (season_start_and_membership.1 2024 3).2 (by norm_num),
   season_start_and_membership.2 [EventRow.mk 5 [Entry.mk 100 0]] 10 0
     (by simp) _ (by simp)⟩

/-- One selected past event before ranking: title, display date (dates in
`%Y-%m-%d` strings compare lexicographically, i.e. chronologically, so the
date is modelled as `ℚ`), and final sold count. -/
structure PastEvent where
  title : String
  date : ℚ
  sold : ℤ
deriving DecidableEq

/-- A past event after rank assignment: the same fields plus `rank` and
the standout marker `top_performer` (Python sets the key only for the
first three list positions; absence is modelled as `false`). -/
structure RankedEvent where
  title : String
  date : ℚ
  sold : ℤ
  rank : ℕ
  top_performer : Bool
deriving DecidableEq

/-- The comparison realised by
`past_events.sort(key=lambda x: x['sold'], reverse=True)`: a stable
descending sort by sold count. -/
def soldDescLe (a b : PastEvent) : Bool := decide (b.sold ≤ a.sold)

/-- Model of the stable descending sort by sold count of
`src/tickets/ticket-fetch.py:328` (Python's `list.sort` is a stable merge
sort). -/
def sortBySoldDesc (l : List PastEvent) : List PastEvent := l.mergeSort soldDescLe

/-- The rank/standout assignment loop of
`src/tickets/ticket-fetch.py:331-334`: position `i` gets rank `i + 1` and
the standout marker iff `i < 3`. -/
def assignRanks (l : List PastEvent) : List RankedEvent :=
  l.enum.map (fun p => ⟨p.2.title, p.2.date, p.2.sold, p.1 + 1, decide (p.1 < 3)⟩)

/-- Sort-then-rank composition of `src/tickets/ticket-fetch.py:327-334`. -/
def rankPastEvents (l : List PastEvent) : List RankedEvent :=
  assignRanks (sortBySoldDesc l)

/-- The comparison realised by
`past_events.sort(key=lambda x: x['date'], reverse=True)`: descending by
display date. -/
def dateDescLe (a b : RankedEvent) : Bool := decide (b.date ≤ a.date)

/-- The display re-sort of `src/tickets/ticket-fetch.py:337`: events
(with their already-assigned ranks and markers) re-sorted descending by
date. -/
def displaySort (l : List RankedEvent) : List RankedEvent := l.mergeSort dateDescLe

theorem mergeSort_filter_of_tied {α : Type} (le : α → α → Bool)
    (htrans : ∀ a b c, le a b → le b c → le a c)
    (htotal : ∀ a b, le a b || le b a)
    (l : List α) (p : α → Bool)
    (hp : ∀ a b, p a → p b → le a b) :
    (l.mergeSort le).filter p = l.filter p := by
  have hc : (l.filter p).Pairwise (fun a b => le a b) :=
    List.pairwise_of_forall_mem_list (fun a ha b hb =>
      hp a b (List.of_mem_filter ha) (List.of_mem_filter hb))
  have hsub : (l.filter p).Sublist (l.mergeSort le) := by
    apply List.sublist_mergeSort htrans htotal
    · exact hc
    · exact List.filter_sublist l
  have hself : (l.filter p).filter p = l.filter p :=
    List.filter_eq_self.mpr (fun a ha => List.of_mem_filter ha)
  have hsub2 : (l.filter p).Sublist ((l.mergeSort le).filter p) := by
    have := hsub.filter p
    rwa [hself] at this
  have hperm : ((l.mergeSort le).filter p).Perm (l.filter p) :=
    (List.mergeSort_perm l le).filter p
  exact (hsub2.eq_of_length hperm.length_eq.symm).symm

/-- C6: ranking sorts descending by sold count with a stable sort (the
events of any fixed sold count appear in the output in exactly their input
order), assigns ranks `1, 2, ..., n` in that order, flags exactly the
ranks `<= 3` as standouts, and the display re-sort by date descending is a
permutation of the ranked list, so every event record travels with its
rank and standout marker. -/
theorem season_ranking_pipeline (l : List PastEvent) :
    (sortBySoldDesc l).Pairwise (fun a b => b.sold ≤ a.sold) ∧
    (∀ s : ℤ, (sortBySoldDesc l).filter (fun e => e.sold == s) =
      l.filter (fun e => e.sold == s)) ∧
    (rankPastEvents l).map RankedEvent.rank = List.range' 1 l.length ∧
    (∀ e ∈ rankPastEvents l, e.top_performer = decide (e.rank ≤ 3)) ∧
    (displaySort (rankPastEvents l)).Perm (rankPastEvents l) ∧
    (displaySort (rankPastEvents l)).Pairwise (fun a b => b.date ≤ a.date) := by
  have htrans : ∀ a b c : PastEvent, soldDescLe a b → soldDescLe b c → soldDescLe a c := by
    intro a b c
    simp only [soldDescLe, decide_eq_true_eq]
    omega
  have htotal : ∀ a b : PastEvent, soldDescLe a b || soldDescLe b a := by
    intro a b
    simp only [soldDescLe]
    rcases le_total a.sold b.sold with h | h <;> simp [h]
  have hsorted : (sortBySoldDesc l).Pairwise (fun a b => b.sold ≤ a.sold) := by
    have := List.sorted_mergeSort htrans htotal l
    exact this.imp (fun {a b} h => by simpa [soldDescLe] using h)
  refine ⟨hsorted, ?_, ?_, ?_, ?_, ?_⟩
  · intro s
    apply mergeSort_filter_of_tied
    · exact htrans
    · exact htotal
    · intro a b ha hb
      simp only [beq_iff_eq] at ha hb
      simp [soldDescLe, ha, hb]
  · rw [rankPastEvents, assignRanks, List.map_map]
    have h1 : (RankedEvent.rank ∘ fun p : ℕ × PastEvent =>
        RankedEvent.mk p.2.title p.2.date p.2.sold (p.1 + 1) (decide (p.1 < 3))) =
        (fun i => i + 1) ∘ Prod.fst := rfl
    rw [h1, ← List.map_map, List.enum_map_fst, List.range'_eq_map_range]
    have hlen : (sortBySoldDesc l).length = l.length := List.length_mergeSort l
    rw [hlen]
    apply List.map_congr_left
    intro a _
    omega
  · intro e he
    rw [rankPastEvents, assignRanks] at he
    simp only [List.mem_map] at he
    obtain ⟨p, hp, rfl⟩ := he
    simp only
    rw [decide_eq_decide]
    omega
  · exact List.mergeSort_perm _ _
  · have htrans2 : ∀ a b c : RankedEvent,
        dateDescLe a b → dateDescLe b c → dateDescLe a c := by
      intro a b c
      simp only [dateDescLe, decide_eq_true_eq]
      intro h1 h2
      linarith
    have htotal2 : ∀ a b : RankedEvent, dateDescLe a b || dateDescLe b a := by
      intro a b
      simp only [dateDescLe]
      rcases le_total a.date b.date with h | h <;> simp [h]
    have := List.sorted_mergeSort htrans2 htotal2 (rankPastEvents l)
    exact this.imp (fun {a b} h => by simpa [dateDescLe] using h)

/-!
Time aligner.

Model of the timestamp normalization before the
`(event_start - sample_time)` subtraction.  `src/tickets/lib/graph.py:68-69`
(and both `draw_graph` copies) does
`parse(entry[3]).replace(tzinfo=timezone.utc)`, and
`src/tickets/ticket-fetch.py:134-137` does `replace(tzinfo=None)` on both
operands: in both cases a serialized zone offset is discarded and the
wall-clock fields are reinterpreted, rather than converted to UTC with the
instant preserved (`astimezone`).
-/

/-- A serialized timestamp as `dateutil.parser.parse` returns it: the
wall-clock value (hours, as `ℚ`) and the explicit zone offset when one was
serialized (`none` for a zone-naive timestamp). -/
structure RawTimestamp where
  wallclock : ℚ
  offset : Option ℚ
deriving DecidableEq

/-- The UTC instant a serialized timestamp denotes: its wall clock minus
its offset, with a zone-naive timestamp read as UTC (the store's documented
convention). -/
def utcInstant (t : RawTimestamp) : ℚ := t.wallclock - (t.offset.getD 0)

/-- Model of `tickets['time'].replace(tzinfo=datetime.timezone.utc)` from
`src/tickets/lib/graph.py:69`: the wall-clock fields are kept and simply
restamped as UTC, so the numeric value used downstream is the wall clock
whatever the serialized offset was. -/
def replace_tzinfo_utc (t : RawTimestamp) : ℚ := t.wallclock

/-- Model of the `replace(tzinfo=None)` stripping of
`src/tickets/ticket-fetch.py:136-137`: the zone-naive comparison value is
again the bare wall clock. -/
def strip_tzinfo (t : RawTimestamp) : ℚ := t.wallclock

/-- Hours-until-event as `generate_graph` computes it
(`src/tickets/lib/graph.py:70`), with the event start already reduced to
its UTC instant. -/
def h_diff_graph (event_time : ℚ) (t : RawTimestamp) : ℚ :=
  event_time - replace_tzinfo_utc t

/-- Hours-until-event as `generate_mini_graph` computes it
(`src/tickets/ticket-fetch.py:140`), with the event start already reduced
to its zone-naive value. -/
def h_diff_mini (event_time : ℚ) (t : RawTimestamp) : ℚ :=
  event_time - strip_tzinfo t

/-- Counterexample for C7: a sample serialized as wall clock 12 with an
explicit +2 h offset denotes the UTC instant 10, so the instant-preserving
hours-until-event for an event at UTC hour 20 is 10; the code computes 8,
because `replace` discards the offset instead of converting. -/
theorem offset_timestamp_not_converted :
    h_diff_graph 20 (RawTimestamp.mk 12 (some 2)) = 8 ∧
    20 - utcInstant (RawTimestamp.mk 12 (some 2)) = 10 ∧
    ((8:ℚ) ≠ 10) := by
  refine ⟨?_, ?_, by norm_num⟩
  · norm_num [h_diff_graph, replace_tzinfo_utc]
  · norm_num [utcInstant]

/-- C7 amended: a zone-naive stored timestamp is interpreted as UTC (both
normalizations agree with the instant-preserving reading there), but a
timestamp carrying an explicit zone offset has the offset discarded — its
wall-clock fields are restamped/stripped rather than converted — so the
computed hours-until-event deviates from the instant-preserving value by
exactly the serialized offset. -/
theorem timestamp_normalization_policy (event_time w o : ℚ) :
    h_diff_graph event_time (RawTimestamp.mk w none) =
      event_time - utcInstant (RawTimestamp.mk w none) ∧
    h_diff_mini event_time (RawTimestamp.mk w none) =
      event_time - utcInstant (RawTimestamp.mk w none) ∧
    h_diff_graph event_time (RawTimestamp.mk w (some o)) =
      event_time - utcInstant (RawTimestamp.mk w (some o)) - o ∧
    h_diff_mini event_time (RawTimestamp.mk w (some o)) =
      event_time - utcInstant (RawTimestamp.mk w (some o)) - o := by
  refine ⟨?_, ?_, ?_, ?_⟩ <;>
    simp [h_diff_graph, h_diff_mini, replace_tzinfo_utc, strip_tzinfo, utcInstant] <;>
    ring

end Gak
